import Mathlib

/-!
Shallow embedding of `scripts/convert_catalog.py` from the ferro-labs/ai-gateway
repository: a one-shot converter from LiteLLM's model-pricing dataset to the
Ferro catalog schema.

Numeric cost fields are modelled as rationals (`ℚ`); `round(x, 10)` is modelled
as round-half-to-even at ten fractional decimal digits, which is Python's
rounding mode.  Source attribute mappings are modelled as a structure of
optional fields (`none` = key absent or JSON null); a top-level value that is
not a mapping is modelled by the `SrcVal.nonRecord` constructor.  The main
loop's catalog dictionary is modelled as an insertion-ordered association list.
-/

namespace ConvertCatalog

set_option maxRecDepth 10000

/-- Output mode enumeration (`MODE_MAP` codomain). -/
inductive Mode where
  | chat
  | embedding
  | image
  | audio_in
  | audio_out
deriving DecidableEq, Repr, Inhabited

/-- Generic string-keyed association lookup, modelling Python `dict.get`. -/
def assocLookup {α : Type} : List (String × α) → String → Option α
  | [], _ => none
  | (k2, v) :: rest, k => if k2 = k then some v else assocLookup rest k

/-- `MODE_MAP`: LiteLLM mode strings → ModelMode constants. -/
def MODE_MAP : List (String × Mode) :=
  [("chat", Mode.chat),
   ("completion", Mode.chat),
   ("embedding", Mode.embedding),
   ("image_generation", Mode.image),
   ("audio_transcription", Mode.audio_in),
   ("audio_speech", Mode.audio_out)]

/-- `SKIP_MODES`: LiteLLM modes with no gateway equivalent. -/
def SKIP_MODES : List String := ["moderation", "rerank", "search"]

/-- `PROVIDER_ALIASES`: LiteLLM provider name → canonical provider name. -/
def PROVIDER_ALIASES : List (String × String) :=
  [("text-completion-openai", "openai"),
   ("chatgpt", "openai"),
   ("openai_like", "openai"),
   ("openai_compatible", "openai"),
   ("cohere_chat", "cohere"),
   ("codestral", "mistral"),
   ("text-completion-codestral", "mistral"),
   ("mistral_azure", "azure"),
   ("together_ai", "together"),
   ("fireworks_ai", "fireworks"),
   ("fireworks_ai-embedding-models", "fireworks"),
   ("bedrock_converse", "bedrock"),
   ("bedrock_converse_passthrough", "bedrock"),
   ("sagemaker_chat", "sagemaker"),
   ("sagemaker_meta", "sagemaker"),
   ("vertex_ai_beta", "vertex_ai"),
   ("vertex_ai-anthropic_models", "vertex_ai"),
   ("vertex_ai-llama_models", "vertex_ai"),
   ("vertex_ai-mistral_models", "vertex_ai"),
   ("vertex_ai-image-models", "vertex_ai"),
   ("vertex_ai-embedding-models", "vertex_ai"),
   ("vertex_ai-vision-models", "vertex_ai"),
   ("vertex_ai-code-text-models", "vertex_ai"),
   ("vertex_ai-language-models", "vertex_ai"),
   ("vertex_ai-text-models", "vertex_ai"),
   ("vertex_ai-chat-models", "vertex_ai"),
   ("vertex_ai-code-chat-models", "vertex_ai"),
   ("azure_ai", "azure"),
   ("azure_text", "azure"),
   ("azure_openai", "azure"),
   ("eu.anthropic", "anthropic"),
   ("us.anthropic", "anthropic"),
   ("us.amazon", "bedrock"),
   ("eu.amazon", "bedrock"),
   ("ap.amazon", "bedrock"),
   ("us.meta", "bedrock"),
   ("eu.meta", "bedrock"),
   ("ollama_chat", "ollama"),
   ("ai21_chat", "ai21")]

/-- A LiteLLM source attribute mapping.  Every field is optional: `none`
models an absent key (or JSON `null`). -/
structure SrcEntry where
  mode : Option String := none
  litellm_provider : Option String := none
  input_cost_per_token : Option ℚ := none
  output_cost_per_token : Option ℚ := none
  cache_read_input_token_cost : Option ℚ := none
  cache_creation_input_token_cost : Option ℚ := none
  input_cost_per_reasoning_token : Option ℚ := none
  input_cost_per_second : Option ℚ := none
  input_cost_per_audio_per_second : Option ℚ := none
  output_cost_per_image : Option ℚ := none
  output_cost_per_character : Option ℚ := none
  ft_input_cost_per_token : Option ℚ := none
  ft_output_cost_per_token : Option ℚ := none
  supports_vision : Option Bool := none
  supports_audio_input : Option Bool := none
  supports_audio_output : Option Bool := none
  supports_function_calling : Option Bool := none
  supports_parallel_function_calling : Option Bool := none
  supports_response_schema : Option Bool := none
  supports_prompt_caching : Option Bool := none
  supports_reasoning : Option Bool := none
  deprecation_date : Option String := none
  display_name : Option String := none
  max_input_tokens : Option ℤ := none
  max_output_tokens : Option ℤ := none
  source : Option String := none
deriving DecidableEq

/-- A top-level value of the source mapping: either a record (a Python dict)
or some other JSON value (`not isinstance(v, dict)`). -/
inductive SrcVal where
  | record (v : SrcEntry)
  | nonRecord
deriving DecidableEq

/-- Python truthiness of an optional boolean flag: `bool(v.get(k))`. -/
def truthyB (b : Option Bool) : Bool := b.getD false

/-- Python truthiness of an optional number: present and nonzero. -/
def truthyQ (x : Option ℚ) : Bool :=
  match x with
  | none => false
  | some c => decide (c ≠ 0)

/-- Python truthiness of an optional string: present and nonempty. -/
def truthyS (s : Option String) : Bool :=
  match s with
  | none => false
  | some t => decide (t ≠ "")

/-- Round-half-to-even to an integer (Python `round` at ndigits = 0). -/
def roundHalfEven (q : ℚ) : ℤ :=
  let f := q.floor
  let r := q - f
  if r < mkRat 1 2 then f
  else if mkRat 1 2 < r then f + 1
  else if f % 2 = 0 then f else f + 1

/-- Python `round(q, 10)`: round half to even at ten fractional digits. -/
def pyRound10 (q : ℚ) : ℚ := mkRat (roundHalfEven (q * 10 ^ 10)) (10 ^ 10)

/-- `canonical_provider`: alias-table lookup, pass-through when absent. -/
def canonical_provider (litellm_provider : String) : String :=
  (assocLookup PROVIDER_ALIASES litellm_provider).getD litellm_provider

/-- Python `s.startswith(p)`, on the character sequences of the strings. -/
def pyStartsWith (s p : String) : Bool := p.data.isPrefixOf s.data

/-- Python slicing `s[n:]`, on the character sequence of the string. -/
def pyDrop (s : String) (n : ℕ) : String := String.mk (s.data.drop n)

/-- Python `len(s)`: number of characters. -/
def pyLen (s : String) : ℕ := s.data.length

/-- The `for p in (...)` loop body of `derive_model_id`: strip the first
matching element of the candidate list, or return the key unchanged. -/
def dropFirstMatching (key : String) : List String → String
  | [] => key
  | p :: ps => if pyStartsWith key p then pyDrop key (pyLen p) else dropFirstMatching key ps

/-- `derive_model_id`: strip the raw-provider or canonical-provider slash
prefix, raw first, else return the key unchanged. -/
def derive_model_id (litellm_key : String) (litellm_provider : String) : String :=
  let canon := canonical_provider litellm_provider
  dropFirstMatching litellm_key [litellm_provider ++ "/", canon ++ "/"]

/-- `per_m`: per-token cost → per-million-tokens rate, `None` passes through. -/
def per_m (cost_per_token : Option ℚ) : Option ℚ :=
  match cost_per_token with
  | none => none
  | some c => some (pyRound10 (c * 1000000))

/-- The fixed-shape pricing record of eleven nullable rate fields. -/
structure Pricing where
  input_per_m_tokens : Option ℚ := none
  output_per_m_tokens : Option ℚ := none
  cache_read_per_m_tokens : Option ℚ := none
  cache_write_per_m_tokens : Option ℚ := none
  reasoning_per_m_tokens : Option ℚ := none
  image_per_tile : Option ℚ := none
  audio_input_per_minute : Option ℚ := none
  audio_output_per_character : Option ℚ := none
  embedding_per_m_tokens : Option ℚ := none
  finetune_train_per_m_tokens : Option ℚ := none
  finetune_input_per_m_tokens : Option ℚ := none
  finetune_output_per_m_tokens : Option ℚ := none
deriving DecidableEq, Inhabited

/-- The fixed-shape capability record of boolean flags. -/
structure Caps where
  vision : Bool
  audio_input : Bool
  audio_output : Bool
  function_calling : Bool
  parallel_tool_calls : Bool
  json_mode : Bool
  response_schema : Bool
  prompt_caching : Bool
  reasoning : Bool
  streaming : Bool
  finetuneable : Bool
deriving DecidableEq, Inhabited

/-- Lifecycle record: status plus optional dates and successor. -/
structure Lifecycle where
  status : String
  deprecation_date : Option String
  sunset_date : Option String
  successor : Option String
deriving DecidableEq, Inhabited

/-- One canonical catalog entry (the dict returned by `convert_entry`). -/
structure CatalogEntry where
  provider : String
  model_id : String
  display_name : String
  mode : Mode
  context_window : ℤ
  max_output_tokens : ℤ
  pricing : Pricing
  capabilities : Caps
  lifecycle : Lifecycle
  source : String
  updated_at : String
deriving DecidableEq, Inhabited

/-- `convert_entry`: build a catalog entry from one source record, or `none`
when the raw mode is in `SKIP_MODES`. -/
def convert_entry (litellm_key : String) (v : SrcEntry) (provider : String) :
    Option CatalogEntry :=
  let raw_mode := v.mode
  if (match raw_mode with | some m => decide (m ∈ SKIP_MODES) | none => false : Bool) then none
  else
    let mode : Mode :=
      match raw_mode with
      | some m => (assocLookup MODE_MAP m).getD Mode.chat
      | none => Mode.chat
    let model_id := derive_model_id litellm_key (v.litellm_provider.getD "")
    let pricing : Pricing :=
      if mode = Mode.embedding then
        { embedding_per_m_tokens := per_m v.input_cost_per_token }
      else
        let audio_in_per_min : Option ℚ :=
          match v.input_cost_per_second with
          | some x => some (pyRound10 (x * 60))
          | none =>
            match v.input_cost_per_audio_per_second with
            | some y => some (pyRound10 (y * 60))
            | none => none
        { input_per_m_tokens := per_m v.input_cost_per_token,
          output_per_m_tokens := per_m v.output_cost_per_token,
          cache_read_per_m_tokens := per_m v.cache_read_input_token_cost,
          cache_write_per_m_tokens := per_m v.cache_creation_input_token_cost,
          reasoning_per_m_tokens := per_m v.input_cost_per_reasoning_token,
          image_per_tile := v.output_cost_per_image,
          audio_input_per_minute := audio_in_per_min,
          audio_output_per_character := v.output_cost_per_character,
          embedding_per_m_tokens := none,
          finetune_train_per_m_tokens := per_m v.ft_input_cost_per_token,
          finetune_input_per_m_tokens := per_m v.ft_input_cost_per_token,
          finetune_output_per_m_tokens := per_m v.ft_output_cost_per_token }
    let caps : Caps :=
      { vision := truthyB v.supports_vision,
        audio_input := truthyB v.supports_audio_input,
        audio_output := truthyB v.supports_audio_output,
        function_calling := truthyB v.supports_function_calling,
        parallel_tool_calls := truthyB v.supports_parallel_function_calling,
        json_mode := truthyB v.supports_function_calling,
        response_schema := truthyB v.supports_response_schema,
        prompt_caching := truthyB v.supports_prompt_caching,
        reasoning := truthyB v.supports_reasoning || truthyQ v.input_cost_per_reasoning_token,
        streaming := true,
        finetuneable := truthyQ v.ft_input_cost_per_token || truthyQ v.ft_output_cost_per_token }
    let lifecycle_status := if truthyS v.deprecation_date then "deprecated" else "ga"
    some
      { provider := provider,
        model_id := model_id,
        display_name := if truthyS v.display_name then v.display_name.getD "" else model_id,
        mode := mode,
        context_window := v.max_input_tokens.getD 0,
        max_output_tokens := v.max_output_tokens.getD 0,
        pricing := pricing,
        capabilities := caps,
        lifecycle :=
          { status := lifecycle_status,
            deprecation_date := v.deprecation_date,
            sunset_date := none,
            successor := none },
        source := if truthyS v.source then v.source.getD "" else "",
        updated_at := "2026-02-28" }

/-- `has_pricing`: any of six rate fields non-null (input, output, embedding,
image-tile, audio-input, audio-output). -/
def has_pricing (entry : CatalogEntry) : Bool :=
  entry.pricing.input_per_m_tokens.isSome ||
  entry.pricing.output_per_m_tokens.isSome ||
  entry.pricing.embedding_per_m_tokens.isSome ||
  entry.pricing.image_per_tile.isSome ||
  entry.pricing.audio_input_per_minute.isSome ||
  entry.pricing.audio_output_per_character.isSome

/-- The diagnostic counters dictionary of `main`. -/
structure Counters where
  skipped_spec : ℕ
  skipped_mode : ℕ
  skipped_no_provider : ℕ
  duplicates : ℕ
  written : ℕ
deriving DecidableEq

/-- In-memory state of `main`'s loop: the catalog dictionary (modelled as an
insertion-ordered association list) and the counters. -/
structure RunState where
  catalog : List (String × CatalogEntry)
  counters : Counters
deriving DecidableEq

/-- Lookup in the catalog dictionary (`catalog[key]` / `key in catalog`). -/
def catLookup : List (String × CatalogEntry) → String → Option CatalogEntry
  | [], _ => none
  | (k2, e) :: rest, k => if k2 = k then some e else catLookup rest k

/-- Assignment to an existing key of the catalog dictionary: replace the value
in place, keeping insertion order. -/
def catUpdate : List (String × CatalogEntry) → String → CatalogEntry →
    List (String × CatalogEntry)
  | [], _, _ => []
  | (a, b) :: rest, k, e =>
    if a = k then (k, e) :: catUpdate rest k e else (a, b) :: catUpdate rest k e

/-- One iteration of `main`'s loop over `raw.items()`. -/
def process_entry (st : RunState) (kv : String × SrcVal) : RunState :=
  if kv.1 = "sample_spec" then
    { st with counters := { st.counters with skipped_spec := st.counters.skipped_spec + 1 } }
  else
    match kv.2 with
    | SrcVal.nonRecord => st
    | SrcVal.record v =>
      let litellm_provider := v.litellm_provider.getD ""
      if litellm_provider = "" then
        { st with counters :=
            { st.counters with skipped_no_provider := st.counters.skipped_no_provider + 1 } }
      else
        let provider := canonical_provider litellm_provider
        match convert_entry kv.1 v provider with
        | none =>
          { st with counters := { st.counters with skipped_mode := st.counters.skipped_mode + 1 } }
        | some entry =>
          let catalog_key := provider ++ "/" ++ entry.model_id
          match catLookup st.catalog catalog_key with
          | some old =>
            let counters := { st.counters with duplicates := st.counters.duplicates + 1 }
            if has_pricing entry && !has_pricing old then
              { catalog := catUpdate st.catalog catalog_key entry, counters := counters }
            else
              { catalog := st.catalog, counters := counters }
          | none =>
            { catalog := st.catalog ++ [(catalog_key, entry)],
              counters := { st.counters with written := st.counters.written + 1 } }

/-- Fold `process_entry` over a list of source items. -/
def process_all (st : RunState) (items : List (String × SrcVal)) : RunState :=
  items.foldl process_entry st

/-- The state at the top of `main`'s loop: empty catalog, zero counters. -/
def init_state : RunState :=
  { catalog := [], counters := ⟨0, 0, 0, 0, 0⟩ }

/-- A whole conversion run over the source items in iteration order. -/
def run_conversion (items : List (String × SrcVal)) : RunState :=
  process_all init_state items


/-! ## Concrete example inputs used by witnesses and counterexamples -/

/-- Source record of the §8 single-entry example, extended with an
audio-input per-second cost. -/
def exC1v : SrcEntry :=
  { litellm_provider := some "openai", mode := some "chat",
    input_cost_per_token := some (mkRat 3 100000),
    input_cost_per_second := some (mkRat 1 100) }

/-- The catalog entry produced from `exC1v`. -/
def exC1e : CatalogEntry := (convert_entry "m" exC1v "openai").getD default

/-- First (unpriced) entry of the duplicate-resolution scenario. -/
def exC2v1 : SrcEntry := { litellm_provider := some "openai", mode := some "chat" }

/-- Second (priced) entry of the duplicate-resolution scenario. -/
def exC2v2 : SrcEntry :=
  { litellm_provider := some "openai", mode := some "chat",
    input_cost_per_token := some (mkRat 1 1000) }

/-- The duplicate-resolution scenario: two source entries deriving the same
catalog key, the first unpriced, the second priced. -/
def exC2items : List (String × SrcVal) :=
  [("openai/foo", SrcVal.record exC2v1), ("foo", SrcVal.record exC2v2)]

/-- The run over the duplicate-resolution scenario. -/
def exC2run : RunState := run_conversion exC2items

/-- Converted form of the first scenario entry. -/
def exC2e1 : CatalogEntry := (convert_entry "openai/foo" exC2v1 "openai").getD default

/-- Converted form of the second scenario entry. -/
def exC2e2 : CatalogEntry := (convert_entry "foo" exC2v2 "openai").getD default

/-- State after processing the first scenario entry only. -/
def exC2st : RunState := run_conversion [("openai/foo", SrcVal.record exC2v1)]

/-- Source record whose only price is a cache-read cost: its converted entry
has a non-null price field among the eleven, but none of the six checked by
`has_pricing`. -/
def exC3w1 : SrcEntry :=
  { litellm_provider := some "openai", mode := some "chat",
    cache_read_input_token_cost := some (mkRat 1 1000) }

/-- A priced record colliding with the conversion of `exC3w1`. -/
def exC3w2 : SrcEntry :=
  { litellm_provider := some "openai", mode := some "chat",
    input_cost_per_token := some (mkRat 2 1000) }

/-- State holding one priced entry under the key "openai/foo". -/
def exC3st : RunState := run_conversion [("openai/foo", SrcVal.record exC2v2)]

/-- The priced entry held by `exC3st`. -/
def exC3e : CatalogEntry := (convert_entry "openai/foo" exC2v2 "openai").getD default

/-- The §8 single-entry example source record. -/
def exC4v : SrcEntry :=
  { litellm_provider := some "openai", mode := some "chat",
    input_cost_per_token := some (mkRat 3 100000) }

/-- The §8 single-entry example run input. -/
def exC4items : List (String × SrcVal) := [("gpt-4/foo", SrcVal.record exC4v)]

/-- A source record with an unsupported mode ("rerank"). -/
def exC5v : SrcEntry := { litellm_provider := some "openai", mode := some "rerank" }

/-- A source record with a present reasoning-token price of 0 and no explicit
reasoning-support flag. -/
def exC8v : SrcEntry :=
  { litellm_provider := some "openai", mode := some "chat",
    input_cost_per_reasoning_token := some 0 }

/-- A source record with an explicit reasoning-support flag. -/
def exC8w : SrcEntry :=
  { litellm_provider := some "openai", mode := some "chat",
    supports_reasoning := some true }

/-- The catalog entry produced from `exC8w`. -/
def exC8we : CatalogEntry := (convert_entry "m8" exC8w "openai").getD default

/-! ## Helper lemmas -/

theorem per_m_eq_map (o : Option ℚ) :
    per_m o = o.map (fun c => pyRound10 (c * 1000000)) := by
  cases o <;> rfl

theorem truthyB_eq_true_iff (b : Option Bool) : truthyB b = true ↔ b = some true := by
  cases b with
  | none => simp [truthyB]
  | some x => cases x <;> simp [truthyB]

theorem truthyQ_eq_true_iff (x : Option ℚ) :
    truthyQ x = true ↔ ∃ c, x = some c ∧ c ≠ 0 := by
  cases x <;> simp [truthyQ]

theorem catLookup_append_left {c1 c2 : List (String × CatalogEntry)} {k : String}
    {e : CatalogEntry} (h : catLookup c1 k = some e) : catLookup (c1 ++ c2) k = some e := by
  induction c1 with
  | nil => simp [catLookup] at h
  | cons hd tl ih =>
    obtain ⟨a, b⟩ := hd
    simp only [catLookup, List.cons_append] at h ⊢
    by_cases ha : a = k
    · rwa [if_pos ha] at h ⊢
    · rw [if_neg ha] at h ⊢
      exact ih h

theorem catLookup_catUpdate_of_ne {c : List (String × CatalogEntry)} {k k2 : String}
    {e2 : CatalogEntry} (h : k ≠ k2) :
    catLookup (catUpdate c k2 e2) k = catLookup c k := by
  induction c with
  | nil => rfl
  | cons hd tl ih =>
    obtain ⟨a, b⟩ := hd
    by_cases ha : a = k2
    · simp only [catUpdate, if_pos ha, catLookup]
      rw [if_neg (fun hh => h hh.symm), if_neg (fun hh => h (ha ▸ hh.symm))]
      exact ih
    · simp only [catUpdate, if_neg ha, catLookup]
      by_cases hak : a = k
      · rw [if_pos hak, if_pos hak]
      · rw [if_neg hak, if_neg hak]
        exact ih

theorem catLookup_catUpdate_self {c : List (String × CatalogEntry)} {k : String}
    {eOld e : CatalogEntry} (h : catLookup c k = some eOld) :
    catLookup (catUpdate c k e) k = some e := by
  induction c with
  | nil => simp [catLookup] at h
  | cons hd tl ih =>
    obtain ⟨a, b⟩ := hd
    simp only [catLookup, catUpdate] at h ⊢
    by_cases ha : a = k
    · rw [if_pos ha]
      simp [catLookup]
    · rw [if_neg ha] at h ⊢
      simp only [catLookup, if_neg ha]
      exact ih h

theorem catUpdate_length (c : List (String × CatalogEntry)) (k : String) (e : CatalogEntry) :
    (catUpdate c k e).length = c.length := by
  induction c with
  | nil => rfl
  | cons hd tl ih =>
    obtain ⟨a, b⟩ := hd
    by_cases ha : a = k
    · simp [catUpdate, if_pos ha, ih]
    · simp [catUpdate, if_neg ha, ih]

theorem catUpdate_map_fst (c : List (String × CatalogEntry)) (k : String) (e : CatalogEntry) :
    (catUpdate c k e).map Prod.fst = c.map Prod.fst := by
  induction c with
  | nil => rfl
  | cons hd tl ih =>
    obtain ⟨a, b⟩ := hd
    by_cases ha : a = k
    · simp [catUpdate, if_pos ha, ih, ha]
    · simp [catUpdate, if_neg ha, ih]

theorem not_mem_of_catLookup_eq_none {c : List (String × CatalogEntry)} {k : String}
    (h : catLookup c k = none) : k ∉ c.map Prod.fst := by
  induction c with
  | nil => simp
  | cons hd tl ih =>
    obtain ⟨a, b⟩ := hd
    simp only [catLookup] at h
    by_cases ha : a = k
    · rw [if_pos ha] at h
      exact absurd h (by simp)
    · rw [if_neg ha] at h
      simp only [List.map_cons, List.mem_cons]
      rintro (rfl | hm)
      · exact ha rfl
      · exact ih h hm

theorem pe_sentinel (st : RunState) (sv : SrcVal) :
    process_entry st ("sample_spec", sv) =
      { st with counters := { st.counters with skipped_spec := st.counters.skipped_spec + 1 } } := by
  simp [process_entry]

theorem pe_nonrecord (st : RunState) (k : String) (hk : k ≠ "sample_spec") :
    process_entry st (k, SrcVal.nonRecord) = st := by
  simp [process_entry, hk]

theorem pe_no_provider (st : RunState) (k : String) (v : SrcEntry) (hk : k ≠ "sample_spec")
    (hp : v.litellm_provider.getD "" = "") :
    process_entry st (k, SrcVal.record v) =
      { st with counters :=
          { st.counters with skipped_no_provider := st.counters.skipped_no_provider + 1 } } := by
  simp [process_entry, hk, hp]

theorem pe_skip_mode (st : RunState) (k : String) (v : SrcEntry) (hk : k ≠ "sample_spec")
    (hp : v.litellm_provider.getD "" ≠ "")
    (hc : convert_entry k v (canonical_provider (v.litellm_provider.getD "")) = none) :
    process_entry st (k, SrcVal.record v) =
      { st with counters := { st.counters with skipped_mode := st.counters.skipped_mode + 1 } } := by
  simp [process_entry, hk, hp, hc]

theorem pe_collision (st : RunState) (k : String) (v : SrcEntry) (entry old : CatalogEntry)
    (hk : k ≠ "sample_spec") (hp : v.litellm_provider.getD "" ≠ "")
    (hc : convert_entry k v (canonical_provider (v.litellm_provider.getD "")) = some entry)
    (hl : catLookup st.catalog
        (canonical_provider (v.litellm_provider.getD "") ++ "/" ++ entry.model_id) = some old) :
    process_entry st (k, SrcVal.record v) =
      { catalog :=
          if has_pricing entry && !has_pricing old then
            catUpdate st.catalog
              (canonical_provider (v.litellm_provider.getD "") ++ "/" ++ entry.model_id) entry
          else st.catalog,
        counters := { st.counters with duplicates := st.counters.duplicates + 1 } } := by
  simp [process_entry, hk, hp, hc, hl]
  split <;> rfl

theorem pe_new_key (st : RunState) (k : String) (v : SrcEntry) (entry : CatalogEntry)
    (hk : k ≠ "sample_spec") (hp : v.litellm_provider.getD "" ≠ "")
    (hc : convert_entry k v (canonical_provider (v.litellm_provider.getD "")) = some entry)
    (hl : catLookup st.catalog
        (canonical_provider (v.litellm_provider.getD "") ++ "/" ++ entry.model_id) = none) :
    process_entry st (k, SrcVal.record v) =
      { catalog := st.catalog ++
          [(canonical_provider (v.litellm_provider.getD "") ++ "/" ++ entry.model_id, entry)],
        counters := { st.counters with written := st.counters.written + 1 } } := by
  simp [process_entry, hk, hp, hc, hl]

theorem pe_preserves_priced (st : RunState) (kv : String × SrcVal) (k : String) (e : CatalogEntry)
    (h1 : catLookup st.catalog k = some e) (h2 : has_pricing e = true) :
    catLookup (process_entry st kv).catalog k = some e := by
  obtain ⟨kk, sv⟩ := kv
  by_cases hk : kk = "sample_spec"
  · subst hk; rw [pe_sentinel]; exact h1
  cases sv with
  | nonRecord => rw [pe_nonrecord st kk hk]; exact h1
  | record v =>
    by_cases hp : v.litellm_provider.getD "" = ""
    · rw [pe_no_provider st kk v hk hp]; exact h1
    · cases hc : convert_entry kk v (canonical_provider (v.litellm_provider.getD "")) with
      | none => rw [pe_skip_mode st kk v hk hp hc]; exact h1
      | some entry =>
        cases hl : catLookup st.catalog
            (canonical_provider (v.litellm_provider.getD "") ++ "/" ++ entry.model_id) with
        | none =>
          rw [pe_new_key st kk v entry hk hp hc hl]
          exact catLookup_append_left h1
        | some old =>
          rw [pe_collision st kk v entry old hk hp hc hl]
          simp only
          split
          · rename_i hcond
            by_cases hkey :
                k = canonical_provider (v.litellm_provider.getD "") ++ "/" ++ entry.model_id
            · subst hkey
              rw [h1] at hl
              injection hl with hl
              subst hl
              simp [h2] at hcond
            · rw [catLookup_catUpdate_of_ne hkey]
              exact h1
          · exact h1

theorem pe_written_delta (st : RunState) (kv : String × SrcVal) :
    (process_entry st kv).counters.written + st.catalog.length
      = st.counters.written + (process_entry st kv).catalog.length := by
  obtain ⟨kk, sv⟩ := kv
  by_cases hk : kk = "sample_spec"
  · subst hk; rw [pe_sentinel]
  · cases sv with
    | nonRecord => rw [pe_nonrecord st kk hk]
    | record v =>
      by_cases hp : v.litellm_provider.getD "" = ""
      · rw [pe_no_provider st kk v hk hp]
      · cases hc : convert_entry kk v (canonical_provider (v.litellm_provider.getD "")) with
        | none => rw [pe_skip_mode st kk v hk hp hc]
        | some entry =>
          cases hl : catLookup st.catalog
              (canonical_provider (v.litellm_provider.getD "") ++ "/" ++ entry.model_id) with
          | none =>
            rw [pe_new_key st kk v entry hk hp hc hl]
            simp only [List.length_append, List.length_cons, List.length_nil]
            omega
          | some old =>
            rw [pe_collision st kk v entry old hk hp hc hl]
            simp only
            split
            · simp [catUpdate_length]
            · rfl

theorem pe_nodup (st : RunState) (kv : String × SrcVal)
    (h : (st.catalog.map Prod.fst).Nodup) :
    ((process_entry st kv).catalog.map Prod.fst).Nodup := by
  obtain ⟨kk, sv⟩ := kv
  by_cases hk : kk = "sample_spec"
  · subst hk; rw [pe_sentinel]; exact h
  · cases sv with
    | nonRecord => rw [pe_nonrecord st kk hk]; exact h
    | record v =>
      by_cases hp : v.litellm_provider.getD "" = ""
      · rw [pe_no_provider st kk v hk hp]; exact h
      · cases hc : convert_entry kk v (canonical_provider (v.litellm_provider.getD "")) with
        | none => rw [pe_skip_mode st kk v hk hp hc]; exact h
        | some entry =>
          cases hl : catLookup st.catalog
              (canonical_provider (v.litellm_provider.getD "") ++ "/" ++ entry.model_id) with
          | none =>
            rw [pe_new_key st kk v entry hk hp hc hl]
            simp only [List.map_append, List.map_cons, List.map_nil]
            refine List.Nodup.append h (List.nodup_singleton _) ?_
            intro a ha hb
            simp only [List.mem_singleton] at hb
            subst hb
            exact not_mem_of_catLookup_eq_none hl ha
          | some old =>
            rw [pe_collision st kk v entry old hk hp hc hl]
            simp only
            split
            · rw [catUpdate_map_fst]; exact h
            · exact h

theorem pa_written_inv (items : List (String × SrcVal)) (st : RunState)
    (h1 : st.counters.written = st.catalog.length)
    (h2 : (st.catalog.map Prod.fst).Nodup) :
    (process_all st items).counters.written = (process_all st items).catalog.length ∧
    ((process_all st items).catalog.map Prod.fst).Nodup := by
  induction items generalizing st with
  | nil => exact ⟨h1, h2⟩
  | cons hd tl ih =>
    refine ih (process_entry st hd) ?_ (pe_nodup st hd h2)
    have hd1 := pe_written_delta st hd
    omega

/-! ## Claim theorems -/

/-- C1: a present per-token cost `c` converts to `round(c * 1_000_000, 10)` in
the corresponding per-million-tokens pricing field, an absent (null) cost
yields a null rate (never zero), and audio-input pricing converts
cost-per-second to cost-per-minute (× 60) taking the first present of
`input_cost_per_second` and `input_cost_per_audio_per_second`, in that
order. -/
theorem claim_C1_pricing_unit_conversion :
    (∀ c : ℚ, per_m (some c) = some (pyRound10 (c * 1000000))) ∧
    per_m none = none ∧
    (∀ (k : String) (v : SrcEntry) (p : String) (e : CatalogEntry),
      convert_entry k v p = some e → e.mode ≠ Mode.embedding →
        e.pricing.input_per_m_tokens =
          v.input_cost_per_token.map (fun c => pyRound10 (c * 1000000)) ∧
        e.pricing.output_per_m_tokens =
          v.output_cost_per_token.map (fun c => pyRound10 (c * 1000000)) ∧
        e.pricing.cache_read_per_m_tokens =
          v.cache_read_input_token_cost.map (fun c => pyRound10 (c * 1000000)) ∧
        e.pricing.cache_write_per_m_tokens =
          v.cache_creation_input_token_cost.map (fun c => pyRound10 (c * 1000000)) ∧
        e.pricing.reasoning_per_m_tokens =
          v.input_cost_per_reasoning_token.map (fun c => pyRound10 (c * 1000000)) ∧
        e.pricing.finetune_train_per_m_tokens =
          v.ft_input_cost_per_token.map (fun c => pyRound10 (c * 1000000)) ∧
        e.pricing.finetune_input_per_m_tokens =
          v.ft_input_cost_per_token.map (fun c => pyRound10 (c * 1000000)) ∧
        e.pricing.finetune_output_per_m_tokens =
          v.ft_output_cost_per_token.map (fun c => pyRound10 (c * 1000000)) ∧
        e.pricing.audio_input_per_minute =
          (match v.input_cost_per_second with
           | some x => some (pyRound10 (x * 60))
           | none =>
             match v.input_cost_per_audio_per_second with
             | some y => some (pyRound10 (y * 60))
             | none => none)) ∧
    (∀ (k : String) (v : SrcEntry) (p : String) (e : CatalogEntry),
      convert_entry k v p = some e → e.mode = Mode.embedding →
        e.pricing.embedding_per_m_tokens =
          v.input_cost_per_token.map (fun c => pyRound10 (c * 1000000))) := by
  refine ⟨fun c => rfl, rfl, ?_, ?_⟩
  · intro k v p e h hm
    simp only [convert_entry] at h
    split at h
    · exact absurd h (by simp)
    · injection h with h
      subst h
      simp only at hm ⊢
      rw [if_neg hm]
      refine ⟨?_, ?_, ?_, ?_, ?_, ?_, ?_, ?_, rfl⟩
      · cases v.input_cost_per_token <;> rfl
      · cases v.output_cost_per_token <;> rfl
      · cases v.cache_read_input_token_cost <;> rfl
      · cases v.cache_creation_input_token_cost <;> rfl
      · cases v.input_cost_per_reasoning_token <;> rfl
      · cases v.ft_input_cost_per_token <;> rfl
      · cases v.ft_input_cost_per_token <;> rfl
      · cases v.ft_output_cost_per_token <;> rfl
  · intro k v p e h hm
    simp only [convert_entry] at h
    split at h
    · exact absurd h (by simp)
    · injection h with h
      subst h
      simp only at hm ⊢
      rw [if_pos hm]
      cases v.input_cost_per_token <;> rfl

/-- Witness for C1: the non-embedding field equations applied to a concrete
chat-mode record with a per-token and a per-second cost. -/
theorem claim_C1_witness :
    convert_entry "m" exC1v "openai" = some exC1e ∧ exC1e.mode ≠ Mode.embedding ∧
    exC1e.pricing.input_per_m_tokens =
      exC1v.input_cost_per_token.map (fun c => pyRound10 (c * 1000000)) := by
  have h1 : convert_entry "m" exC1v "openai" = some exC1e := by with_unfolding_all decide
  have h2 : exC1e.mode ≠ Mode.embedding := by with_unfolding_all decide
  exact ⟨h1, h2, (claim_C1_pricing_unit_conversion.2.2.1 "m" exC1v "openai" exC1e h1 h2).1⟩

/-- C2: on a key collision the later entry replaces the earlier one iff the
later entry has pricing (six-field check) and the earlier has none; the
duplicates counter increments once per collision; in the two-entry scenario
(first unpriced, second priced) the final entry is the second and the
duplicates counter is 1. -/
theorem claim_C2_duplicate_resolution :
    (∀ (st : RunState) (k : String) (v : SrcEntry) (entry old : CatalogEntry),
      k ≠ "sample_spec" →
      v.litellm_provider.getD "" ≠ "" →
      convert_entry k v (canonical_provider (v.litellm_provider.getD "")) = some entry →
      catLookup st.catalog
          (canonical_provider (v.litellm_provider.getD "") ++ "/" ++ entry.model_id)
        = some old →
      catLookup (process_entry st (k, SrcVal.record v)).catalog
          (canonical_provider (v.litellm_provider.getD "") ++ "/" ++ entry.model_id)
        = some (if has_pricing entry && !has_pricing old then entry else old) ∧
      (process_entry st (k, SrcVal.record v)).counters.duplicates
        = st.counters.duplicates + 1) ∧
    catLookup exC2run.catalog "openai/foo" = convert_entry "foo" exC2v2 "openai" ∧
    exC2run.counters.duplicates = 1 := by
  refine ⟨?_, by with_unfolding_all decide, by with_unfolding_all decide⟩
  intro st k v entry old hk hp hc hl
  rw [pe_collision st k v entry old hk hp hc hl]
  constructor
  · simp only
    split
    · exact catLookup_catUpdate_self hl
    · exact hl
  · rfl

/-- Witness for C2: the collision rule applied to the concrete scenario state
holding the unpriced first entry, with the priced second entry arriving. -/
theorem claim_C2_witness :
    ("foo" : String) ≠ "sample_spec" ∧
    exC2v2.litellm_provider.getD "" ≠ "" ∧
    convert_entry "foo" exC2v2 (canonical_provider (exC2v2.litellm_provider.getD ""))
      = some exC2e2 ∧
    catLookup exC2st.catalog
        (canonical_provider (exC2v2.litellm_provider.getD "") ++ "/" ++ exC2e2.model_id)
      = some exC2e1 ∧
    catLookup (process_entry exC2st ("foo", SrcVal.record exC2v2)).catalog
        (canonical_provider (exC2v2.litellm_provider.getD "") ++ "/" ++ exC2e2.model_id)
      = some (if has_pricing exC2e2 && !has_pricing exC2e1 then exC2e2 else exC2e1) := by
  have h1 : ("foo" : String) ≠ "sample_spec" := by decide
  have h2 : exC2v2.litellm_provider.getD "" ≠ "" := by with_unfolding_all decide
  have h3 : convert_entry "foo" exC2v2 (canonical_provider (exC2v2.litellm_provider.getD ""))
      = some exC2e2 := by with_unfolding_all decide
  have h4 : catLookup exC2st.catalog
      (canonical_provider (exC2v2.litellm_provider.getD "") ++ "/" ++ exC2e2.model_id)
      = some exC2e1 := by with_unfolding_all decide
  exact ⟨h1, h2, h3, h4,
    (claim_C2_duplicate_resolution.1 exC2st "foo" exC2v2 exC2e2 exC2e1 h1 h2 h3 h4).1⟩

/-- C3 counterexample: a catalog key holding an entry whose only non-null
price field is the cache-read rate (one of the eleven pricing-record fields)
is nevertheless replaced by a later entry for the same key, contradicting the
claim that any non-null price field blocks replacement. -/
theorem claim_C3_counterexample :
    (catLookup (run_conversion [("openai/bar", SrcVal.record exC3w1)]).catalog "openai/bar").map
        (fun e => e.pricing.cache_read_per_m_tokens) = some (some 1000) ∧
    (catLookup (run_conversion
          [("openai/bar", SrcVal.record exC3w1), ("bar", SrcVal.record exC3w2)]).catalog
        "openai/bar").map
        (fun e => (e.pricing.cache_read_per_m_tokens, e.pricing.input_per_m_tokens))
      = some (none, some 2000) := by
  constructor
  · with_unfolding_all decide
  · with_unfolding_all decide

/-- C3 (amended): once the catalog holds under a key an entry with a non-null
price field among the six checked by `has_pricing` (input, output, embedding,
image-tile, audio-input, audio-output), no subsequent source entry replaces
it. -/
theorem claim_C3_priced_monotonic :
    ∀ (items : List (String × SrcVal)) (st : RunState) (k : String) (e : CatalogEntry),
      catLookup st.catalog k = some e → has_pricing e = true →
      catLookup (process_all st items).catalog k = some e := by
  intro items
  induction items with
  | nil => exact fun st k e h1 _ => h1
  | cons hd tl ih =>
    intro st k e h1 h2
    exact ih (process_entry st hd) k e (pe_preserves_priced st hd k e h1 h2) h2

/-- Witness for C3: a priced entry under "openai/foo" survives a later
unpriced duplicate. -/
theorem claim_C3_witness :
    catLookup exC3st.catalog "openai/foo" = some exC3e ∧ has_pricing exC3e = true ∧
    catLookup (process_all exC3st [("foo", SrcVal.record exC2v1)]).catalog "openai/foo"
      = some exC3e := by
  have h1 : catLookup exC3st.catalog "openai/foo" = some exC3e := by with_unfolding_all decide
  have h2 : has_pricing exC3e = true := by with_unfolding_all decide
  exact ⟨h1, h2,
    claim_C3_priced_monotonic [("foo", SrcVal.record exC2v1)] exC3st "openai/foo" exC3e h1 h2⟩

/-- C4 counterexample: the §8 example entry with source key "gpt-4/foo" and
provider "openai" produces the catalog key "openai/gpt-4/foo" — the key
"openai/foo" claimed in the spec is absent from the resulting catalog. -/
theorem claim_C4_counterexample :
    (run_conversion exC4items).catalog.map Prod.fst = ["openai/gpt-4/foo"] ∧
    catLookup (run_conversion exC4items).catalog "openai/foo" = none := by
  constructor
  · with_unfolding_all decide
  · with_unfolding_all decide

/-- C4 (amended): the §8 example entry produces the catalog key
"openai/gpt-4/foo" (the "gpt-4/" key prefix does not match the provider and
is not stripped), with input price 30 per million tokens and streaming
capability true. -/
theorem claim_C4_amended_scenario :
    (catLookup (run_conversion exC4items).catalog "openai/gpt-4/foo").map
        (fun e => (e.pricing.input_per_m_tokens, e.capabilities.streaming))
      = some (some 30, true) := by
  with_unfolding_all decide

/-- C5 counterexample: a non-record (non-mapping) source value is skipped
without incrementing any counter — the loop state is entirely unchanged — so
the "dedicated counter per skip category" claim fails for the non-record
category. -/
theorem claim_C5_counterexample :
    process_entry init_state ("x", SrcVal.nonRecord) = init_state := by
  with_unfolding_all decide

/-- C5 (amended): the reserved sentinel key, a missing/empty provider tag and
an unsupported mode each increment their own dedicated counter and the run
continues without producing a catalog entry; a non-record value is skipped
silently, leaving the state (catalog and every counter) unchanged. -/
theorem claim_C5_amended_skip_counters :
    (∀ (st : RunState) (sv : SrcVal),
      process_entry st ("sample_spec", sv) =
        { st with counters :=
            { st.counters with skipped_spec := st.counters.skipped_spec + 1 } }) ∧
    (∀ (st : RunState) (k : String), k ≠ "sample_spec" →
      process_entry st (k, SrcVal.nonRecord) = st) ∧
    (∀ (st : RunState) (k : String) (v : SrcEntry), k ≠ "sample_spec" →
      v.litellm_provider.getD "" = "" →
      process_entry st (k, SrcVal.record v) =
        { st with counters :=
            { st.counters with skipped_no_provider := st.counters.skipped_no_provider + 1 } }) ∧
    (∀ (st : RunState) (k : String) (v : SrcEntry), k ≠ "sample_spec" →
      v.litellm_provider.getD "" ≠ "" →
      convert_entry k v (canonical_provider (v.litellm_provider.getD "")) = none →
      process_entry st (k, SrcVal.record v) =
        { st with counters :=
            { st.counters with skipped_mode := st.counters.skipped_mode + 1 } }) :=
  ⟨pe_sentinel, pe_nonrecord, pe_no_provider, pe_skip_mode⟩

/-- Witness for C5: the unsupported-mode rule applied to a concrete "rerank"
record. -/
theorem claim_C5_witness :
    ("m" : String) ≠ "sample_spec" ∧
    exC5v.litellm_provider.getD "" ≠ "" ∧
    convert_entry "m" exC5v (canonical_provider (exC5v.litellm_provider.getD "")) = none ∧
    process_entry init_state ("m", SrcVal.record exC5v) =
      { init_state with counters :=
          { init_state.counters with
              skipped_mode := init_state.counters.skipped_mode + 1 } } := by
  have h1 : ("m" : String) ≠ "sample_spec" := by decide
  have h2 : exC5v.litellm_provider.getD "" ≠ "" := by with_unfolding_all decide
  have h3 : convert_entry "m" exC5v (canonical_provider (exC5v.litellm_provider.getD ""))
      = none := by with_unfolding_all decide
  exact ⟨h1, h2, h3,
    claim_C5_amended_skip_counters.2.2.2 init_state "m" exC5v h1 h2 h3⟩

/-- C6: the derived model identifier strips the raw-provider slash prefix if
present, else the canonical-provider slash prefix if present (raw checked
first), else returns the key unchanged. -/
theorem claim_C6_derive_model_id :
    ∀ (key p : String),
      derive_model_id key p =
        if pyStartsWith key (p ++ "/") then pyDrop key (pyLen (p ++ "/"))
        else if pyStartsWith key (canonical_provider p ++ "/") then
          pyDrop key (pyLen (canonical_provider p ++ "/"))
        else key := by
  intro key p
  rfl

/-- C7: every produced catalog entry has json_mode equal to function_calling
and streaming true. -/
theorem claim_C7_json_mode_streaming :
    ∀ (k : String) (v : SrcEntry) (p : String) (e : CatalogEntry),
      convert_entry k v p = some e →
        e.capabilities.json_mode = e.capabilities.function_calling ∧
        e.capabilities.streaming = true := by
  intro k v p e h
  simp only [convert_entry] at h
  split at h
  · exact absurd h (by simp)
  · injection h with h
    subst h
    exact ⟨rfl, rfl⟩

/-- Witness for C7: the coupling at a concrete produced entry. -/
theorem claim_C7_witness :
    convert_entry "m" exC1v "openai" = some exC1e ∧
    exC1e.capabilities.json_mode = exC1e.capabilities.function_calling := by
  have h1 : convert_entry "m" exC1v "openai" = some exC1e := by with_unfolding_all decide
  exact ⟨h1, (claim_C7_json_mode_streaming "m" exC1v "openai" exC1e h1).1⟩

/-- C8 counterexample: a source record with a present reasoning-token price
of 0 (and no reasoning-support flag) yields a produced entry whose reasoning
capability is false — the claim says a present price of 0 makes it true. -/
theorem claim_C8_counterexample :
    exC8v.input_cost_per_reasoning_token = some 0 ∧
    (convert_entry "m" exC8v "openai").map (fun e => e.capabilities.reasoning)
      = some false := by
  constructor
  · rfl
  · with_unfolding_all decide

/-- C8 (amended): for every produced entry the reasoning capability is true
iff the explicit reasoning-support flag is truthy or the reasoning-token price
is present and nonzero (Python truthiness: a present 0 does not count). -/
theorem claim_C8_reasoning_flag :
    ∀ (k : String) (v : SrcEntry) (p : String) (e : CatalogEntry),
      convert_entry k v p = some e →
        (e.capabilities.reasoning = true ↔
          (v.supports_reasoning = some true ∨
           ∃ c, v.input_cost_per_reasoning_token = some c ∧ c ≠ 0)) := by
  intro k v p e h
  simp only [convert_entry] at h
  split at h
  · exact absurd h (by simp)
  · injection h with h
    subst h
    simp only [Bool.or_eq_true, truthyB_eq_true_iff, truthyQ_eq_true_iff]

/-- Witness for C8: a concrete record with the explicit reasoning-support
flag set yields reasoning = true. -/
theorem claim_C8_witness :
    convert_entry "m8" exC8w "openai" = some exC8we ∧
    exC8we.capabilities.reasoning = true := by
  have h1 : convert_entry "m8" exC8w "openai" = some exC8we := by with_unfolding_all decide
  exact ⟨h1, (claim_C8_reasoning_flag "m8" exC8w "openai" exC8we h1).mpr
    (Or.inl (by with_unfolding_all decide))⟩

/-- C9: in every produced non-embedding-mode entry the finetune-train and
finetune-input rates are equal (both derived from ft_input_cost_per_token). -/
theorem claim_C9_finetune_rates_equal :
    ∀ (k : String) (v : SrcEntry) (p : String) (e : CatalogEntry),
      convert_entry k v p = some e → e.mode ≠ Mode.embedding →
        e.pricing.finetune_train_per_m_tokens = e.pricing.finetune_input_per_m_tokens := by
  intro k v p e h hm
  simp only [convert_entry] at h
  split at h
  · exact absurd h (by simp)
  · injection h with h
    subst h
    simp only at hm ⊢
    rw [if_neg hm]

/-- Witness for C9: the equality at a concrete chat-mode entry. -/
theorem claim_C9_witness :
    convert_entry "m" exC1v "openai" = some exC1e ∧ exC1e.mode ≠ Mode.embedding ∧
    exC1e.pricing.finetune_train_per_m_tokens = exC1e.pricing.finetune_input_per_m_tokens := by
  have h1 : convert_entry "m" exC1v "openai" = some exC1e := by with_unfolding_all decide
  have h2 : exC1e.mode ≠ Mode.embedding := by with_unfolding_all decide
  exact ⟨h1, h2, claim_C9_finetune_rates_equal "m" exC1v "openai" exC1e h1 h2⟩

/-- C10: at the end of every run the written counter equals the number of
distinct keys of the final catalog (the catalog's keys are pairwise distinct
and written equals their count), and a collision never increments the written
counter. -/
theorem claim_C10_written_counts_keys :
    (∀ items : List (String × SrcVal),
      (run_conversion items).counters.written = (run_conversion items).catalog.length ∧
      ((run_conversion items).catalog.map Prod.fst).Nodup) ∧
    (∀ (st : RunState) (k : String) (v : SrcEntry) (entry old : CatalogEntry),
      k ≠ "sample_spec" →
      v.litellm_provider.getD "" ≠ "" →
      convert_entry k v (canonical_provider (v.litellm_provider.getD "")) = some entry →
      catLookup st.catalog
          (canonical_provider (v.litellm_provider.getD "") ++ "/" ++ entry.model_id)
        = some old →
      (process_entry st (k, SrcVal.record v)).counters.written = st.counters.written) := by
  constructor
  · intro items
    exact pa_written_inv items init_state rfl (by simp [init_state])
  · intro st k v entry old hk hp hc hl
    rw [pe_collision st k v entry old hk hp hc hl]

/-- Witness for C10: the collision in the two-entry duplicate scenario leaves
the written counter unchanged. -/
theorem claim_C10_witness :
    ("foo" : String) ≠ "sample_spec" ∧
    exC2v2.litellm_provider.getD "" ≠ "" ∧
    convert_entry "foo" exC2v2 (canonical_provider (exC2v2.litellm_provider.getD ""))
      = some exC2e2 ∧
    catLookup exC2st.catalog
        (canonical_provider (exC2v2.litellm_provider.getD "") ++ "/" ++ exC2e2.model_id)
      = some exC2e1 ∧
    (process_entry exC2st ("foo", SrcVal.record exC2v2)).counters.written
      = exC2st.counters.written := by
  have h1 : ("foo" : String) ≠ "sample_spec" := by decide
  have h2 : exC2v2.litellm_provider.getD "" ≠ "" := by with_unfolding_all decide
  have h3 : convert_entry "foo" exC2v2 (canonical_provider (exC2v2.litellm_provider.getD ""))
      = some exC2e2 := by with_unfolding_all decide
  have h4 : catLookup exC2st.catalog
      (canonical_provider (exC2v2.litellm_provider.getD "") ++ "/" ++ exC2e2.model_id)
      = some exC2e1 := by with_unfolding_all decide
  exact ⟨h1, h2, h3, h4,
    claim_C10_written_counts_keys.2 exC2st "foo" exC2v2 exC2e2 exC2e1 h1 h2 h3 h4⟩

end ConvertCatalog
